import Mathlib

/-!
Verification development for the per-request dispatch engine of an HTTP
client (`src/unit.rs`): request-unit construction, cookie matching,
cookie ingest, and the recursive redirect engine.

The source file `unit.rs` is translated directly.  Collaborators that live
outside the provided source (the header module, the response reader, the
external URL and cookie crates, the transports) are modelled from the
specification; each such definition carries a doc comment saying so.
-/

namespace Ureq

/-- Position of the first occurrence of `needle` in `hay`, mirroring the
substring search of the standard library's `str::find` / `str::contains`
used by the source. -/
def findSubAux {α : Type} [BEq α] (needle : List α) : List α → Nat → Option Nat
  | hay, i =>
    if needle.isPrefixOf hay then some i
    else
      match hay with
      | [] => none
      | _ :: t => findSubAux needle t (i + 1)

/-- First occurrence of `needle` in `hay` (`str::find`), as a character
index. -/
def strFind (hay needle : String) : Option Nat :=
  findSubAux needle.data hay.data 0

/-- Substring test (`str::contains`). -/
def strContains (hay needle : String) : Bool :=
  (strFind hay needle).isSome

/-- ASCII-lowered code of a character, used to model the source's
case-insensitive comparisons. -/
def lowerCode (c : Char) : Nat :=
  if 65 ≤ c.toNat ∧ c.toNat ≤ 90 then c.toNat + 32 else c.toNat

/-- ASCII-lowered character codes of a string. -/
def lowerCodes (s : String) : List Nat :=
  s.data.map lowerCode

/-- ASCII-case-insensitive string equality (`eq_ignore_ascii_case`). -/
def eqIgnoreAsciiCase (a b : String) : Bool :=
  lowerCodes a == lowerCodes b

/-- Case-insensitive substring test, modelling the source's
`raw.to_lowercase().contains(pat)` for an ASCII pattern. -/
def containsIgnoreCase (hay needle : String) : Bool :=
  (findSubAux (lowerCodes needle) (lowerCodes hay) 0).isSome

/-- Modelled from the spec: `Header` (validated name + value pair) lives in
the repository's header module, which is not part of the provided source. -/
structure Header where
  name : String
  value : String
deriving DecidableEq

/-- Modelled from the spec: case-insensitive header lookup from the
repository's header module; the first matching header wins. -/
def get_header (headers : List Header) (name : String) : Option String :=
  (headers.find? (fun h => eqIgnoreAsciiCase h.name name)).map Header.value

/-- Modelled from the spec: header presence test from the repository's
header module. -/
def has_header (headers : List Header) (name : String) : Bool :=
  (get_header headers name).isSome

/-- Modelled from the spec: values of all headers with the given name
(case-insensitive), in order. -/
def get_all_headers (headers : List Header) (name : String) : List String :=
  (headers.filter (fun h => eqIgnoreAsciiCase h.name name)).map Header.value

/-- Modelled from the spec: the external cookie crate's cookie value —
name, value, optional domain and path attributes, secure flag. -/
structure Cookie where
  name : String
  value : String
  domain : Option String
  path : Option String
  secure : Bool
deriving DecidableEq

/-- Split a character list at every occurrence of `sep`; the second argument
is the accumulator for the current segment. -/
def splitChar (sep : Char) : List Char → List Char → List (List Char)
  | [], acc => [acc.reverse]
  | c :: t, acc =>
    if c == sep then acc.reverse :: splitChar sep t []
    else splitChar sep t (c :: acc)

/-- Strip leading and trailing spaces from a character list. -/
def trimSpaces (l : List Char) : List Char :=
  ((l.dropWhile (fun c => c == ' ')).reverse.dropWhile (fun c => c == ' ')).reverse

/-- Join character-list segments with the separator `sep`. -/
def joinSep (sep : Char) : List (List Char) → List Char
  | [] => []
  | [x] => x
  | x :: xs => x ++ sep :: joinSep sep xs

/-- Modelled from the spec: the external cookie crate's parser.  The leading
`name=value` pair is required (construction failure otherwise, with a
nonempty name); `Domain=`, `Path=` and `Secure` attributes are recognised
case-insensitively; anything else is ignored. -/
def Cookie.parse_encoded (s : String) : Option Cookie :=
  match (splitChar ';' s.data []).map trimSpaces with
  | [] => none
  | nv :: attrs =>
    match splitChar '=' nv [] with
    | [] => none
    | [_] => none
    | n :: rest =>
      if n = [] then none
      else
        some (attrs.foldl
          (fun c a =>
            let codes := a.map lowerCode
            if (lowerCodes "domain=").isPrefixOf codes then
              { c with domain := some (String.mk (a.drop 7)) }
            else if (lowerCodes "path=").isPrefixOf codes then
              { c with path := some (String.mk (a.drop 5)) }
            else if codes == lowerCodes "secure" then
              { c with secure := true }
            else c)
          { name := String.mk n, value := String.mk (joinSep '=' rest),
            domain := none, path := none, secure := false })

/-- Modelled from the spec: `CookieJar::add` with replace-by-(name, domain,
path) semantics; the jar is its own authority for replacement. -/
def jar_add (jar : List Cookie) (c : Cookie) : List Cookie :=
  (jar.filter (fun o => !(o.name == c.name && o.domain == c.domain && o.path == c.path))) ++ [c]

/-- Modelled from the spec: the agent state behind the mutex; only the
cookie jar matters to this engine. -/
structure AgentState where
  jar : List Cookie
deriving DecidableEq

/-- Modelled from the spec: the external URL type's accessors used by the
source — scheme, optional host, path, optional query. -/
structure Url where
  scheme : String
  host : Option String
  path : String
  query : Option String
deriving DecidableEq

/-- Caller request as consumed by `Unit::new`: agent handle, method, headers,
query object (modelled as its rendered string) and the three timeouts. -/
structure Request where
  agent : Option AgentState
  method : String
  headers : List Header
  query : String
  timeout_connect : Nat
  timeout_read : Nat
  timeout_write : Nat
deriving DecidableEq

/-- Body descriptor: optional known byte size plus the content, modelled as a
string of bytes. -/
structure SizedReader where
  size : Option Nat
  content : String
deriving DecidableEq

/-- Modelled from the spec: `Payload::Empty.into_read()`, an empty body. -/
def emptyBody : SizedReader := { size := some 0, content := "" }

/-- Translation of `combine_query` (src/unit.rs lines 223-230). -/
def combine_query (url : Url) (query : String) : String :=
  match url.query, decide (query.length > 0) with
  | some urlq, true => "?" ++ urlq ++ "&" ++ query
  | some urlq, false => "?" ++ urlq
  | none, true => "?" ++ query
  | none, false => ""

/-- Translation of `match_cookies` (src/unit.rs lines 193-221).  The rendered
line `Cookie: name=value` always parses as a header in this model, so the
source's trailing `is_some` filter plus `unwrap` map is `filterMap id`. -/
def match_cookies (jar : List Cookie) (domain : String) (path : String) (is_secure : Bool) : List Header :=
  ((jar.filter (fun c =>
      let domain_ok := (c.domain.map (fun cdom => strContains domain cdom)).getD false
      let path_ok := (c.path.map (fun cpath => ((strFind path cpath).map (fun pos => pos == 0)).getD false)).getD true
      let secure_ok := !c.secure || is_secure
      domain_ok && path_ok && secure_ok)).map
    (fun c => some (Header.mk "Cookie" (c.name ++ "=" ++ c.value)))).filterMap id

/-- Translation of `struct Unit` (src/unit.rs lines 3-14). -/
structure Unit where
  agent : Option AgentState
  url : Url
  is_chunked : Bool
  is_head : Bool
  hostname : String
  query_string : String
  headers : List Header
  timeout_connect : Nat
  timeout_read : Nat
  timeout_write : Nat
deriving DecidableEq

/-- Translation of `Unit::new` (src/unit.rs lines 19-79). -/
def Unit.new (req : Request) (url : Url) (body : SizedReader) : Unit :=
  let is_chunked := ((get_header req.headers "transfer-encoding").map
    (fun enc => decide (enc.length > 0))).getD false
  let is_secure := eqIgnoreAsciiCase url.scheme "https"
  let is_head := eqIgnoreAsciiCase req.method "head"
  let hostname := (url.host).getD "localhost"
  let query_string := combine_query url req.query
  let cookie_headers : List Header :=
    match req.agent with
    | none => []
    | some state => match_cookies state.jar hostname url.path is_secure
  let extra_headers : List Header :=
    if !is_chunked && !(has_header req.headers "content-length") then
      match body.size with
      | some size => [Header.mk "Content-Length" (toString size)]
      | none => []
    else []
  { agent := req.agent
    url := url
    is_chunked := is_chunked
    is_head := is_head
    hostname := hostname
    query_string := query_string
    headers := req.headers ++ cookie_headers ++ extra_headers
    timeout_connect := req.timeout_connect
    timeout_read := req.timeout_read
    timeout_write := req.timeout_write }

/-- Modelled from the spec: the response status line and headers as read by
`Response::from_read`; the body stays on the stream. -/
structure Response where
  status : Nat
  headers : List Header
deriving DecidableEq

/-- Modelled from the spec: `Response::redirect()`, true exactly for the
redirect class of status codes (3xx). -/
def Response.redirect (r : Response) : Bool :=
  decide (300 ≤ r.status ∧ r.status ≤ 399)

/-- Error taxonomy of the engine, variants as in the source. -/
inductive Error where
  | UnknownScheme : String → Error
  | BadUrl : String → Error
  | TooManyRedirects : Error
deriving DecidableEq

/-- Outcome of a run: success, an engine error, or a panic — the `unwrap`
on a hostless URL while the prelude is written. -/
inductive Outcome where
  | ok : Response → Outcome
  | err : Error → Outcome
  | panicked : Outcome
deriving DecidableEq

/-- Observable actions of a run, in order: connection opened, prelude
written, cookies ingested into the shared jar, body sent over a connection,
stream handed to the response.  The `Nat` indexes the connection used. -/
inductive Event where
  | opened : Nat → Url → Event
  | wrotePrelude : Nat → String → Event
  | ingested : Nat → Option AgentState → Event
  | sentBody : Nat → SizedReader → Bool → Event
  | handed : Nat → Bool → Event
deriving DecidableEq

/-- Environment of a run: the response each successive connection yields
(indexed by connection number), and the external URL-join operation used to
resolve `Location` headers against the current URL. -/
structure Env where
  respond : Nat → Response
  join : Url → String → Option Url

/-- Header block of the prelude: one `Name: value` line per header. -/
def headerLines (headers : List Header) : String :=
  String.join (headers.map (fun h => h.name ++ ": " ++ h.value ++ "\r\n"))

/-- The buffered request prelude (src/unit.rs lines 99-113): request line
from method, path and the unit's query string, a synthesized `Host` header
when none is present, every unit header, and a blank line.  Returns `none`
exactly when the source panics: `url.host().unwrap()` with no host. -/
def mkPrelude (self : Unit) (url : Url) (method : String) : Option String :=
  let requestLine := method ++ " " ++ url.path ++ self.query_string ++ " HTTP/1.1\r\n"
  let hostLines : Option String :=
    if has_header self.headers "host" then some ""
    else (url.host).map (fun h => "Host: " ++ h ++ "\r\n")
  match hostLines with
  | none => none
  | some hl => some (requestLine ++ hl ++ headerLines self.headers ++ "\r\n")

/-- Translation of the cookie-ingest block of `Unit::connect`
(src/unit.rs lines 120-139): every `set-cookie` value of the response, in
order; a raw value lacking a case-insensitive `domain=` gets
`; Domain=<hostname>` appended before parsing; unparseable cookies are
ignored; each parsed cookie is added to the jar. -/
def ingest_cookies (hostname : String) (jar : List Cookie) (resp : Response) : List Cookie :=
  (get_all_headers resp.headers "set-cookie").foldl
    (fun j raw_cookie =>
      let to_parse :=
        if containsIgnoreCase raw_cookie "domain=" then raw_cookie
        else raw_cookie ++ "; Domain=" ++ hostname
      match Cookie.parse_encoded to_parse with
      | none => j
      | some cookie => jar_add j cookie)
    jar

/-- Translation of `Unit::connect` (src/unit.rs lines 81-175).  The pluggable
transports (out-of-scope collaborators) are modelled as always-successful
streams; the environment supplies the response read on each connection.
Returns the outcome, the shared agent state after the run, and the trace of
observable actions. -/
def connect (env : Env) (self : Unit) : Url → String → Nat → SizedReader → Option AgentState → Nat → Outcome × Option AgentState × List Event
  | url, method, redirects, body, agent, hop =>
    if url.scheme = "http" ∨ url.scheme = "https" ∨ url.scheme = "test" then
      match mkPrelude self url method with
      | none => (Outcome.panicked, agent, [Event.opened hop url])
      | some p =>
        let resp := env.respond hop
        let agent2 := agent.map (fun a => AgentState.mk (ingest_cookies self.hostname a.jar resp))
        let pre := [Event.opened hop url, Event.wrotePrelude hop p, Event.ingested hop agent2]
        let finish := (Outcome.ok resp, agent2,
          pre ++ [Event.sentBody hop body self.is_chunked, Event.handed hop self.is_head])
        if resp.redirect then
          match redirects with
          | 0 => (Outcome.err Error.TooManyRedirects, agent2, pre)
          | r + 1 =>
            match get_header resp.headers "location" with
            | some location =>
              match env.join url location with
              | none => (Outcome.err (Error.BadUrl ("Bad redirection: " ++ location)), agent2, pre)
              | some new_url =>
                if resp.status = 301 ∨ resp.status = 302 ∨ resp.status = 303 then
                  let rc := connect env self new_url "GET" r emptyBody agent2 (hop + 1)
                  (rc.1, rc.2.1, pre ++ [Event.sentBody hop body self.is_chunked] ++ rc.2.2)
                else
                  let rc := connect env self new_url method r body agent2 (hop + 1)
                  (rc.1, rc.2.1, pre ++ rc.2.2)
            | none => finish
        else finish
    else (Outcome.err (Error.UnknownScheme url.scheme), agent, [])

/-- Spec-side cookie-selection predicate, phrased after the specification:
the cookie carries a domain attribute occurring as a substring of the
hostname (a cookie with no domain attribute is never selected); it has no
path attribute or its path occurs in the request path at position 0; and it
is not secure-only or the request is secure. -/
def specCookieSelected (domain path : String) (is_secure : Bool) (c : Cookie) : Bool :=
  (match c.domain with
   | some cdom => strContains domain cdom
   | none => false) &&
  (match c.path with
   | none => true
   | some cpath => strFind path cpath == some 0) &&
  (!c.secure || is_secure)

/-- Concrete URL `http://h/old` used by witnesses. -/
def wUrlOld : Url := { scheme := "http", host := some "h", path := "/old", query := none }

/-- Concrete URL `http://h/new` used by witnesses. -/
def wUrlNew : Url := { scheme := "http", host := some "h", path := "/new", query := none }

/-- Concrete host-less URL on the internal test scheme, used by witnesses. -/
def wUrlNoHost : Url := { scheme := "test", host := none, path := "/p", query := none }

/-- Concrete body of known size 3 used by witnesses. -/
def wBody : SizedReader := { size := some 3, content := "abc" }

/-- Concrete request unit used by witnesses: no agent, no headers, empty
query string. -/
def wSelf : Unit :=
  { agent := none, url := wUrlOld, is_chunked := false, is_head := false,
    hostname := "h", query_string := "", headers := [],
    timeout_connect := 0, timeout_read := 0, timeout_write := 0 }

/-- The prelude `wSelf` writes for `GET` on `wUrlOld`. -/
def wPrelude : String := "GET /old HTTP/1.1\r\nHost: h\r\n\r\n"

/-- Environment answering every connection with a bare 301 response that has
no `Location` header. -/
def wEnv301 : Env :=
  { respond := fun _ => { status := 301, headers := [] },
    join := fun _ _ => none }

/-- Environment answering every connection with a 302 response pointing at
`/new`; URL join resolves to `wUrlNew`. -/
def wEnv302 : Env :=
  { respond := fun _ => { status := 302, headers := [Header.mk "Location" "/new"] },
    join := fun _ _ => some wUrlNew }

/-- Environment answering every connection with a 307 response pointing at
`/new`; URL join resolves to `wUrlNew`. -/
def wEnv307 : Env :=
  { respond := fun _ => { status := 307, headers := [Header.mk "Location" "/new"] },
    join := fun _ _ => some wUrlNew }

/-- Environment answering with a 200 response carrying two `Set-Cookie`
headers, the second of which does not parse as a cookie. -/
def wEnvSetCookie : Env :=
  { respond := fun _ =>
      { status := 200,
        headers := [Header.mk "Set-Cookie" "a=b", Header.mk "set-cookie" "garbage"] },
    join := fun _ _ => none }

/-- Concrete stored cookie for domain `h` used by witnesses. -/
def wJarCookie : Cookie :=
  { name := "c", value := "v", domain := some "h", path := none, secure := false }

/-- Concrete request whose agent jar holds `wJarCookie`. -/
def wReqCook : Request :=
  { agent := some { jar := [wJarCookie] }, method := "GET", headers := [],
    query := "", timeout_connect := 0, timeout_read := 0, timeout_write := 0 }

/-- Concrete request supplying both a transfer-encoding and a content-length
header. -/
def wReqBoth : Request :=
  { agent := none, method := "GET",
    headers := [Header.mk "Transfer-Encoding" "chunked", Header.mk "Content-Length" "5"],
    query := "", timeout_connect := 0, timeout_read := 0, timeout_write := 0 }

/-- Concrete request with one ordinary header and no content-length. -/
def wReqPlain : Request :=
  { agent := none, method := "GET", headers := [Header.mk "Accept" "*"],
    query := "", timeout_connect := 0, timeout_read := 0, timeout_write := 0 }

theorem filterMap_cookie_lines (l : List Cookie) :
    (l.map (fun c => some (Header.mk "Cookie" (c.name ++ "=" ++ c.value)))).filterMap id =
      l.map (fun c => Header.mk "Cookie" (c.name ++ "=" ++ c.value)) := by
  induction l with
  | nil => rfl
  | cons c t ih => simp [List.filterMap_cons, ih]

theorem cookie_lines_no_content_length (l : List Cookie) :
    has_header (l.map (fun c => Header.mk "Cookie" (c.name ++ "=" ++ c.value)))
      "content-length" = false := by
  induction l with
  | nil => rfl
  | cons c t ih =>
    have h : eqIgnoreAsciiCase "Cookie" "content-length" = false := by decide
    simp only [has_header, get_header, List.map_cons, List.find?_cons, h] at *
    exact ih

theorem has_header_append (a b : List Header) (n : String) :
    has_header (a ++ b) n = (has_header a n || has_header b n) := by
  induction a with
  | nil => simp [has_header, get_header]
  | cons h t ih =>
    cases hh : eqIgnoreAsciiCase h.name n <;>
      simp only [has_header, get_header, List.cons_append, List.find?_cons, hh] at * <;>
      simp [ih]

theorem if_bool_and_prop (c h : Bool) (X : List Header) :
    (if !c && !h then X else []) = (if c = false ∧ h = false then X else []) := by
  cases c <;> cases h <;> simp

/-- Claim C1: for a hop whose response status is 301, 302 or 303, with
remaining hop budget `n + 1 > 0` and a `Location` header that resolves
against the current URL, the engine first sends the current body over the
current connection (`hop`) and then recurses to the resolved URL with the
method forced to `GET`, the body replaced by the empty body, and the hop
budget decremented to `n`. -/
theorem connect_301_302_303_sends_body_then_recurses_as_get
    (env : Env) (self : Unit) (url : Url) (method : String) (n : Nat)
    (body : SizedReader) (agent : Option AgentState) (hop : Nat)
    (p loc : String) (new_url : Url)
    (hs : url.scheme = "http" ∨ url.scheme = "https" ∨ url.scheme = "test")
    (hp : mkPrelude self url method = some p)
    (hr : (env.respond hop).redirect = true)
    (hst : (env.respond hop).status = 301 ∨ (env.respond hop).status = 302 ∨
      (env.respond hop).status = 303)
    (hloc : get_header (env.respond hop).headers "location" = some loc)
    (hjoin : env.join url loc = some new_url) :
    connect env self url method (n + 1) body agent hop =
      (let agent2 := agent.map (fun a =>
        AgentState.mk (ingest_cookies self.hostname a.jar (env.respond hop)))
       let rc := connect env self new_url "GET" n emptyBody agent2 (hop + 1)
       (rc.1, rc.2.1,
        [Event.opened hop url, Event.wrotePrelude hop p, Event.ingested hop agent2,
         Event.sentBody hop body self.is_chunked] ++ rc.2.2)) := by
  rw [connect, if_pos hs, hp]
  dsimp only
  rw [hr, hloc]
  dsimp only
  rw [hjoin]
  dsimp only
  rw [if_pos hst]
  rfl

/-- Witness for C1: a concrete 302 hop from `http://h/old` with
`Location: /new` recurses to `http://h/new` with method `GET`, the empty
body and the budget decremented from 1 to 0, after sending the body on
connection 0. -/
theorem connect_301_302_303_witness :
    connect wEnv302 wSelf wUrlOld "GET" 1 wBody none 0 =
      (let agent2 := (none : Option AgentState).map (fun a =>
        AgentState.mk (ingest_cookies wSelf.hostname a.jar (wEnv302.respond 0)))
       let rc := connect wEnv302 wSelf wUrlNew "GET" 0 emptyBody agent2 1
       (rc.1, rc.2.1,
        [Event.opened 0 wUrlOld, Event.wrotePrelude 0 wPrelude, Event.ingested 0 agent2,
         Event.sentBody 0 wBody wSelf.is_chunked] ++ rc.2.2)) :=
  connect_301_302_303_sends_body_then_recurses_as_get wEnv302 wSelf wUrlOld "GET" 0 wBody
    none 0 wPrelude "/new" wUrlNew (Or.inl rfl) (by decide) (by decide) (by decide)
    (by decide) rfl

/-- Claim C2: for a hop whose response status is redirect-class but not 301,
302 or 303 (in particular 307 and 308), with remaining hop budget
`n + 1 > 0` and a resolvable `Location` header, the engine recurses to the
resolved URL with the same method and the same body, and the hop budget
decremented to `n`; nothing is sent on the current connection. -/
theorem connect_other_redirect_recurses_same_method_body
    (env : Env) (self : Unit) (url : Url) (method : String) (n : Nat)
    (body : SizedReader) (agent : Option AgentState) (hop : Nat)
    (p loc : String) (new_url : Url)
    (hs : url.scheme = "http" ∨ url.scheme = "https" ∨ url.scheme = "test")
    (hp : mkPrelude self url method = some p)
    (hr : (env.respond hop).redirect = true)
    (hst : ¬((env.respond hop).status = 301 ∨ (env.respond hop).status = 302 ∨
      (env.respond hop).status = 303))
    (hloc : get_header (env.respond hop).headers "location" = some loc)
    (hjoin : env.join url loc = some new_url) :
    connect env self url method (n + 1) body agent hop =
      (let agent2 := agent.map (fun a =>
        AgentState.mk (ingest_cookies self.hostname a.jar (env.respond hop)))
       let rc := connect env self new_url method n body agent2 (hop + 1)
       (rc.1, rc.2.1,
        [Event.opened hop url, Event.wrotePrelude hop p, Event.ingested hop agent2] ++
          rc.2.2)) := by
  rw [connect, if_pos hs, hp]
  dsimp only
  rw [hr, hloc]
  dsimp only
  rw [hjoin]
  dsimp only
  rw [if_neg hst]
  rfl

/-- Witness for C2: a concrete 307 hop preserves the original method `PUT`
and the original body bytes on the recursive hop. -/
theorem connect_other_redirect_witness :
    connect wEnv307 wSelf wUrlOld "PUT" 1 wBody none 0 =
      (let agent2 := (none : Option AgentState).map (fun a =>
        AgentState.mk (ingest_cookies wSelf.hostname a.jar (wEnv307.respond 0)))
       let rc := connect wEnv307 wSelf wUrlNew "PUT" 0 wBody agent2 1
       (rc.1, rc.2.1,
        [Event.opened 0 wUrlOld, Event.wrotePrelude 0 "PUT /old HTTP/1.1\r\nHost: h\r\n\r\n",
         Event.ingested 0 agent2] ++ rc.2.2)) :=
  connect_other_redirect_recurses_same_method_body wEnv307 wSelf wUrlOld "PUT" 0 wBody
    none 0 "PUT /old HTTP/1.1\r\nHost: h\r\n\r\n" "/new" wUrlNew (Or.inl rfl) (by decide)
    (by decide) (by decide) (by decide) rfl

/-- Counterexample to claim C3 as stated: with remaining hop budget zero, a
301 response lacking a `Location` header is NOT treated like a non-redirect
response — the hop fails with `TooManyRedirects`, no body is sent and no
stream is handed over. -/
theorem redirect_no_location_zero_budget_fails :
    connect wEnv301 wSelf wUrlOld "GET" 0 wBody none 0 =
      (Outcome.err Error.TooManyRedirects, none,
       [Event.opened 0 wUrlOld, Event.wrotePrelude 0 wPrelude, Event.ingested 0 none]) := by
  decide

/-- Claim C3 (amended: remaining hop budget positive): for every hop with
remaining budget `n + 1 > 0`, a response lacking a `Location` header —
redirect-class or not — is treated exactly like a non-redirect response:
the body is sent over the current connection, the stream is handed to the
response object, and the hop succeeds without error. -/
theorem redirect_no_location_positive_budget_finishes
    (env : Env) (self : Unit) (url : Url) (method : String) (n : Nat)
    (body : SizedReader) (agent : Option AgentState) (hop : Nat) (p : String)
    (hs : url.scheme = "http" ∨ url.scheme = "https" ∨ url.scheme = "test")
    (hp : mkPrelude self url method = some p)
    (_hr : (env.respond hop).redirect = true)
    (hloc : get_header (env.respond hop).headers "location" = none) :
    connect env self url method (n + 1) body agent hop =
      (let agent2 := agent.map (fun a =>
        AgentState.mk (ingest_cookies self.hostname a.jar (env.respond hop)))
       (Outcome.ok (env.respond hop), agent2,
        [Event.opened hop url, Event.wrotePrelude hop p, Event.ingested hop agent2,
         Event.sentBody hop body self.is_chunked, Event.handed hop self.is_head])) := by
  rw [connect, if_pos hs, hp]
  dsimp only
  rw [hloc]
  cases hb : (env.respond hop).redirect <;> rfl

/-- Witness for C3 (amended): a concrete 301 response with no `Location`
header and budget 1 finishes normally. -/
theorem redirect_no_location_positive_budget_witness :
    connect wEnv301 wSelf wUrlOld "GET" 1 wBody none 0 =
      (let agent2 := (none : Option AgentState).map (fun a =>
        AgentState.mk (ingest_cookies wSelf.hostname a.jar (wEnv301.respond 0)))
       (Outcome.ok (wEnv301.respond 0), agent2,
        [Event.opened 0 wUrlOld, Event.wrotePrelude 0 wPrelude, Event.ingested 0 agent2,
         Event.sentBody 0 wBody wSelf.is_chunked, Event.handed 0 wSelf.is_head])) :=
  redirect_no_location_positive_budget_finishes wEnv301 wSelf wUrlOld "GET" 0 wBody none 0
    wPrelude (Or.inl rfl) (by decide) (by decide) rfl

/-- Claim C4: for every hop, if the response status is redirect-class and
the remaining hop budget is zero, the hop fails with `TooManyRedirects` and
no further connection is opened — the trace ends after the one `opened`
event of the current hop, with no body sent and no recursive hop. -/
theorem zero_budget_redirect_too_many_redirects
    (env : Env) (self : Unit) (url : Url) (method : String)
    (body : SizedReader) (agent : Option AgentState) (hop : Nat) (p : String)
    (hs : url.scheme = "http" ∨ url.scheme = "https" ∨ url.scheme = "test")
    (hp : mkPrelude self url method = some p)
    (hr : (env.respond hop).redirect = true) :
    connect env self url method 0 body agent hop =
      (let agent2 := agent.map (fun a =>
        AgentState.mk (ingest_cookies self.hostname a.jar (env.respond hop)))
       (Outcome.err Error.TooManyRedirects, agent2,
        [Event.opened hop url, Event.wrotePrelude hop p, Event.ingested hop agent2])) := by
  rw [connect, if_pos hs, hp]
  dsimp only
  rw [hr]
  rfl

/-- Witness for C4: a concrete redirect-class response at budget 0 yields
`TooManyRedirects` with exactly one connection opened. -/
theorem zero_budget_redirect_witness :
    connect wEnv301 wSelf wUrlOld "GET" 0 wBody none 0 =
      (let agent2 := (none : Option AgentState).map (fun a =>
        AgentState.mk (ingest_cookies wSelf.hostname a.jar (wEnv301.respond 0)))
       (Outcome.err Error.TooManyRedirects, agent2,
        [Event.opened 0 wUrlOld, Event.wrotePrelude 0 wPrelude, Event.ingested 0 agent2])) :=
  zero_budget_redirect_too_many_redirects wEnv301 wSelf wUrlOld "GET" wBody none 0
    wPrelude (Or.inl rfl) (by decide) (by decide)

/-- Claim C10: host-header synthesis during a hop is not total.  When the
unit's header set has no `Host` header and the hop URL has no host
component, writing the prelude models the source's `url.host().unwrap()`
panic; yet `Unit::new` handles the same absent-host case by falling back to
the hostname `"localhost"`. -/
theorem prelude_host_unwrap_panics
    (env : Env) (self : Unit) (url : Url) (method : String) (redirects : Nat)
    (body : SizedReader) (agent : Option AgentState) (hop : Nat)
    (req : Request) (body2 : SizedReader)
    (hs : url.scheme = "http" ∨ url.scheme = "https" ∨ url.scheme = "test")
    (hh : has_header self.headers "host" = false)
    (hn : url.host = none) :
    (connect env self url method redirects body agent hop).1 = Outcome.panicked ∧
    (Unit.new req url body2).hostname = "localhost" := by
  have hpn : mkPrelude self url method = none := by
    simp [mkPrelude, hh, hn]
  constructor
  · rw [connect, if_pos hs, hpn]
  · simp [Unit.new, hn]

/-- Witness for C10: on the host-less test-scheme URL, a concrete run
panics while unit construction at the same URL yields hostname
`"localhost"`. -/
theorem prelude_host_unwrap_witness :
    (connect wEnv301 wSelf wUrlNoHost "GET" 1 wBody none 0).1 = Outcome.panicked ∧
    (Unit.new wReqPlain wUrlNoHost wBody).hostname = "localhost" :=
  prelude_host_unwrap_panics wEnv301 wSelf wUrlNoHost "GET" 1 wBody none 0 wReqPlain
    wBody (Or.inr (Or.inr rfl)) (by decide) rfl

/-- Claim C8: on every hop, every `Set-Cookie` value of the response (all
occurrences, in order) is processed before the redirect decision and
regardless of whether the hop then redirects or fails: a raw value lacking
a case-insensitive `domain=` attribute gets `; Domain=<hostname>` appended
before parsing, a parse failure for an individual cookie is skipped and
never aborts the response, and each successfully parsed cookie is added to
the shared jar.  The ingest is the third trace event of the hop, before any
event of a recursive hop, whatever the budget, status and outcome. -/
theorem set_cookie_ingest_on_every_hop
    (env : Env) (self : Unit) (url : Url) (method : String) (redirects : Nat)
    (body : SizedReader) (jar : List Cookie) (hop : Nat) (p : String)
    (hs : url.scheme = "http" ∨ url.scheme = "https" ∨ url.scheme = "test")
    (hp : mkPrelude self url method = some p) :
    ∃ rest,
      (connect env self url method redirects body (some (AgentState.mk jar)) hop).2.2 =
        Event.opened hop url :: Event.wrotePrelude hop p ::
        Event.ingested hop (some (AgentState.mk
          ((get_all_headers (env.respond hop).headers "set-cookie").foldl
            (fun j raw =>
              match Cookie.parse_encoded
                (if containsIgnoreCase raw "domain=" then raw
                 else raw ++ "; Domain=" ++ self.hostname) with
              | none => j
              | some c => jar_add j c) jar))) :: rest := by
  rw [connect, if_pos hs, hp]
  dsimp only
  cases hb : (env.respond hop).redirect
  · exact ⟨_, rfl⟩
  · cases redirects with
    | zero => exact ⟨[], rfl⟩
    | succ r =>
      cases hl : get_header (env.respond hop).headers "location" with
      | none => exact ⟨_, rfl⟩
      | some loc =>
        dsimp only
        cases hj : env.join url loc with
        | none => exact ⟨_, rfl⟩
        | some nu =>
          dsimp only
          by_cases hstat : (env.respond hop).status = 301 ∨ (env.respond hop).status = 302 ∨
            (env.respond hop).status = 303
          · rw [if_pos hstat]
            exact ⟨_, rfl⟩
          · rw [if_neg hstat]
            exact ⟨_, rfl⟩

/-- Witness for C8: a concrete 200 hop carrying two `Set-Cookie` headers —
one valid, one unparseable — ingests them into the jar before finishing. -/
theorem set_cookie_ingest_witness :
    ∃ rest,
      (connect wEnvSetCookie wSelf wUrlOld "GET" 1 wBody (some (AgentState.mk [])) 0).2.2 =
        Event.opened 0 wUrlOld :: Event.wrotePrelude 0 wPrelude ::
        Event.ingested 0 (some (AgentState.mk
          ((get_all_headers (wEnvSetCookie.respond 0).headers "set-cookie").foldl
            (fun j raw =>
              match Cookie.parse_encoded
                (if containsIgnoreCase raw "domain=" then raw
                 else raw ++ "; Domain=" ++ wSelf.hostname) with
              | none => j
              | some c => jar_add j c) []))) :: rest :=
  set_cookie_ingest_on_every_hop wEnvSetCookie wSelf wUrlOld "GET" 1 wBody [] 0 wPrelude
    (Or.inl rfl) (by decide)

/-- Claim C9: across a recursive redirect hop every field of the unit
computed at construction stays unchanged — the recursion re-uses the very
same unit, so headers (with the cookie headers matched against the original
URL's host), query string, hostname, chunked and head flags and the three
timeouts are carried over, and only the url, method, body and budget
parameters change.  In particular, every hop's request line is built from
that hop's URL path concatenated with the original request's query string,
and the unit's header set is the caller headers followed by the cookie
headers matched against the original URL's host and path. -/
theorem redirect_frame_unit_unchanged
    (env : Env) (req : Request) (url0 : Url) (body0 : SizedReader) (self : Unit)
    (url : Url) (method : String) (n : Nat) (body : SizedReader)
    (agent : Option AgentState) (hop : Nat) (p loc : String) (new_url : Url)
    (u2 : Url) (m2 : String) (q : String)
    (hself : self = Unit.new req url0 body0)
    (hs : url.scheme = "http" ∨ url.scheme = "https" ∨ url.scheme = "test")
    (hp : mkPrelude self url method = some p)
    (hr : (env.respond hop).redirect = true)
    (hloc : get_header (env.respond hop).headers "location" = some loc)
    (hjoin : env.join url loc = some new_url)
    (hq : mkPrelude self u2 m2 = some q) :
    (∃ m3 b3 tail,
      connect env self url method (n + 1) body agent hop =
        (let agent2 := agent.map (fun a =>
          AgentState.mk (ingest_cookies self.hostname a.jar (env.respond hop)))
         let rc := connect env self new_url m3 n b3 agent2 (hop + 1)
         (rc.1, rc.2.1, tail ++ rc.2.2))) ∧
    (∃ hostPart,
      q = (m2 ++ " " ++ u2.path ++ combine_query url0 req.query ++ " HTTP/1.1\r\n") ++
        hostPart ++ headerLines self.headers ++ "\r\n") ∧
    self.query_string = combine_query url0 req.query ∧
    (∃ extra, self.headers =
      req.headers ++
        (match req.agent with
         | none => []
         | some state =>
           match_cookies state.jar ((url0.host).getD "localhost") url0.path
             (eqIgnoreAsciiCase url0.scheme "https")) ++ extra) := by
  subst hself
  refine ⟨?_, ?_, rfl, ⟨_, rfl⟩⟩
  · by_cases hstat : (env.respond hop).status = 301 ∨ (env.respond hop).status = 302 ∨
      (env.respond hop).status = 303
    · rw [connect, if_pos hs, hp]
      dsimp only
      rw [hr, hloc]
      dsimp only
      rw [hjoin]
      dsimp only
      rw [if_pos hstat]
      exact ⟨"GET", emptyBody, _, rfl⟩
    · rw [connect, if_pos hs, hp]
      dsimp only
      rw [hr, hloc]
      dsimp only
      rw [hjoin]
      dsimp only
      rw [if_neg hstat]
      exact ⟨method, body, _, rfl⟩
  · cases hhost : has_header (Unit.new req url0 body0).headers "host" with
    | false =>
      cases hu : u2.host with
      | none => simp [mkPrelude, hhost, hu] at hq
      | some hostval =>
        simp only [mkPrelude, hhost, hu, Bool.false_eq_true, if_false, Option.map_some',
          Option.some.injEq] at hq
        exact ⟨"Host: " ++ hostval ++ "\r\n", hq.symm⟩
    | true =>
      simp only [mkPrelude, hhost, if_true, Option.some.injEq] at hq
      exact ⟨"", hq.symm⟩

/-- Concrete unit built from a request whose jar holds a matching cookie. -/
def wSelfCook : Unit := Unit.new wReqCook wUrlOld wBody

/-- The prelude `wSelfCook` writes for `POST` on `wUrlOld`. -/
def wPreludeCook : String :=
  "POST /old HTTP/1.1\r\nHost: h\r\nCookie: c=v\r\nContent-Length: 3\r\n\r\n"

/-- Witness for C9 at a concrete 307 hop from a unit with a matched cookie
header. -/
theorem redirect_frame_witness :
    (∃ m3 b3 tail,
      connect wEnv307 wSelfCook wUrlOld "POST" 1 wBody none 0 =
        (let agent2 := (none : Option AgentState).map (fun a =>
          AgentState.mk (ingest_cookies wSelfCook.hostname a.jar (wEnv307.respond 0)))
         let rc := connect wEnv307 wSelfCook wUrlNew m3 0 b3 agent2 1
         (rc.1, rc.2.1, tail ++ rc.2.2))) ∧
    (∃ hostPart,
      "GET /new HTTP/1.1\r\nHost: h\r\nCookie: c=v\r\nContent-Length: 3\r\n\r\n" =
        ("GET" ++ " " ++ wUrlNew.path ++ combine_query wUrlOld wReqCook.query ++ " HTTP/1.1\r\n") ++
        hostPart ++ headerLines wSelfCook.headers ++ "\r\n") ∧
    wSelfCook.query_string = combine_query wUrlOld wReqCook.query ∧
    (∃ extra, wSelfCook.headers =
      wReqCook.headers ++
        (match wReqCook.agent with
         | none => []
         | some state =>
           match_cookies state.jar ((wUrlOld.host).getD "localhost") wUrlOld.path
             (eqIgnoreAsciiCase wUrlOld.scheme "https")) ++ extra) :=
  redirect_frame_unit_unchanged wEnv307 wReqCook wUrlOld wBody wSelfCook wUrlOld "POST" 0
    wBody none 0 wPreludeCook "/new" wUrlNew wUrlNew "GET"
    "GET /new HTTP/1.1\r\nHost: h\r\nCookie: c=v\r\nContent-Length: 3\r\n\r\n"
    rfl (Or.inl rfl) (by decide) (by decide) (by decide) rfl (by decide)

/-- Claim C7: a stored cookie is selected by the cookie matcher iff (a) it
carries a domain attribute that occurs as a substring of the hostname (a
cookie with no domain attribute is never selected), (b) it has no path
attribute or its path attribute occurs in the request path starting at
position 0, and (c) it is not marked secure or the request is secure; each
selected cookie is rendered as a `Cookie: name=value` header, in jar
order. -/
theorem cookie_selection_characterisation
    (jar : List Cookie) (domain path : String) (is_secure : Bool) :
    match_cookies jar domain path is_secure =
      (jar.filter (specCookieSelected domain path is_secure)).map
        (fun c => Header.mk "Cookie" (c.name ++ "=" ++ c.value)) := by
  unfold match_cookies
  rw [filterMap_cookie_lines]
  congr 1
  apply List.filter_congr
  intro c _
  unfold specCookieSelected
  cases hd : c.domain with
  | none => rfl
  | some cdom =>
    cases hpp : c.path with
    | none => rfl
    | some cpath =>
      simp only [Option.map_some', Option.getD_some]
      cases hf : strFind path cpath <;> rfl

/-- Claim C6: a `Content-Length` header equal to the body's known size is
synthesized iff the unit is not chunked, the caller supplied no
content-length header, and the body size is known; and the final header set
is exactly the caller headers, then the matched cookie headers, then the
synthesized headers, in that order. -/
theorem unit_new_header_assembly (req : Request) (url : Url) (body : SizedReader) :
    (Unit.new req url body).headers =
      req.headers ++
        (match req.agent with
         | none => []
         | some state =>
           match_cookies state.jar ((url.host).getD "localhost") url.path
             (eqIgnoreAsciiCase url.scheme "https")) ++
        (if (Unit.new req url body).is_chunked = false ∧
            has_header req.headers "content-length" = false then
           match body.size with
           | some size => [Header.mk "Content-Length" (toString size)]
           | none => []
         else []) := by
  unfold Unit.new
  dsimp only
  rw [if_bool_and_prop]

/-- Counterexample to claim C5 as stated: a caller who supplies both a
transfer-encoding header and a content-length header yields a unit whose
`is_chunked` flag is true while an explicit `Content-Length` header is
present in the final header set — the invariant does not hold for every
combination of caller headers. -/
theorem chunked_and_content_length_coexist :
    (Unit.new wReqBoth wUrlOld wBody).is_chunked = true ∧
    has_header (Unit.new wReqBoth wUrlOld wBody).headers "content-length" = true := by
  decide

/-- Claim C5 (amended: restricted to callers that supply no content-length
header themselves): for every construction whose caller headers contain no
content-length header, the unit's `is_chunked` flag being true and an
explicit `Content-Length` header being present in the final header set
never hold at the same time — the engine never synthesizes a conflicting
pair. -/
theorem chunked_excludes_content_length_for_clean_callers
    (req : Request) (url : Url) (body : SizedReader)
    (hno : has_header req.headers "content-length" = false) :
    ¬((Unit.new req url body).is_chunked = true ∧
      has_header (Unit.new req url body).headers "content-length" = true) := by
  rintro ⟨hch, hcl⟩
  unfold Unit.new at hch hcl
  dsimp only at hch hcl
  rw [hch] at hcl
  simp only [Bool.not_true, Bool.false_and, Bool.false_eq_true, if_false] at hcl
  rw [has_header_append, has_header_append, hno] at hcl
  cases hag : req.agent with
  | none =>
    rw [hag] at hcl
    simp [has_header, get_header] at hcl
  | some st =>
    rw [hag] at hcl
    dsimp only at hcl
    unfold match_cookies at hcl
    rw [filterMap_cookie_lines, cookie_lines_no_content_length] at hcl
    simp [has_header, get_header] at hcl

/-- Witness for C5 (amended) at a concrete caller without a content-length
header. -/
theorem chunked_excludes_content_length_witness :
    has_header wReqPlain.headers "content-length" = false ∧
    ¬((Unit.new wReqPlain wUrlOld wBody).is_chunked = true ∧
      has_header (Unit.new wReqPlain wUrlOld wBody).headers "content-length" = true) :=
  ⟨by decide,
   chunked_excludes_content_length_for_clean_callers wReqPlain wUrlOld wBody (by decide)⟩

end Ureq
